import Mathlib

/-!
Verification of the Smart-Walker medical-telemetry core against its
natural-language specification.

The development shallowly embeds the Rust sources:
  - src/website/backend/src/ml_service.rs  (anomaly analyzer)
  - src/src/auth.rs                        (token service, bearer extraction)
  - src/src/handlers.rs                    (ingestion and client endpoints)
  - src/src/models.rs                      (data model)

Modelling conventions:
  - Rust i32/i64/u64 become Int/Nat; every value reachable in the claims is
    far from overflow, so no wraparound modelling is needed.
  - Rust f32 scores and temperatures become rationals.  All float comparisons
    in the analyzer sit at thresholds (0, 0.5, 0.8, 3, 30, 35.5, 38, 43) that
    are exactly representable in f32, and every reachable accumulated score is
    a sum of values from 0.5, 0.6, 0.7, 0.8, 0.9 whose f32 rounding error is
    orders of magnitude below the distance to the nearest threshold, so the
    rational model decides every comparison exactly as the f32 code does.
  - External collaborators (the jsonwebtoken codec, HMAC, the SQL engine) are
    modelled as function parameters or as explicit row lists, as close to the
    SQL text as possible.
-/

namespace SmartWalker

/-- Decidable equality of fallible results, used to state handler outcomes. -/
instance {ε α : Type} [DecidableEq ε] [DecidableEq α] :
    DecidableEq (Except ε α) := fun a b =>
  match a, b with
  | Except.ok x, Except.ok y =>
    if h : x = y then isTrue (by rw [h]) else isFalse (by simp [h])
  | Except.error x, Except.error y =>
    if h : x = y then isTrue (by rw [h]) else isFalse (by simp [h])
  | Except.ok _, Except.error _ => isFalse (by simp)
  | Except.error _, Except.ok _ => isFalse (by simp)

/-- JWT claims (src/models.rs, struct Claims).  Uuid values are modelled as
naturals. -/
structure Claims where
  sub : String
  user_id : Nat
  role : String
  exp : Int
  iat : Int
  jti : Nat
deriving DecidableEq

/-- A sensor reading row (src/models.rs, struct SensorReading).  Timestamps
are unix seconds; temperature and quality score are rationals standing for
the stored f32 values.  The json metadata column is not read by any claim
and is omitted. -/
structure SensorReading where
  id : Int
  device_id : Nat
  heart_rate : Option Int
  spo2 : Option Int
  temperature : Option ℚ
  reading_timestamp : Int
  received_at : Int
  quality_score : Option ℚ
deriving DecidableEq

/-- Analyzer configuration (src/config.rs, struct MlConfig). -/
structure MlConfig where
  anomaly_threshold : ℚ
  enable_alerts : Bool
  critical_hr_low : Int
  critical_hr_high : Int
  critical_spo2_low : Int
deriving DecidableEq

/-- The details payload of an analysis (ml_service.rs lines 106-110): the
anomaly strings pushed in program order plus the two z-scores. -/
structure AnalysisDetails where
  anomalies : List String
  hr_zscore : ℚ
  spo2_zscore : ℚ
deriving DecidableEq

/-- Analysis result (ml_service.rs, struct MlAnalysisResult). -/
structure MlAnalysisResult where
  anomaly_detected : Bool
  anomaly_score : ℚ
  classification : String
  alert_level : String
  quality_score : ℚ
  details : AnalysisDetails
deriving DecidableEq

/-- An emitted alert (src/models.rs, struct MlAlert). -/
structure MlAlert where
  level : String
  message : String
  details : AnalysisDetails
deriving DecidableEq

/-- ml_service.rs line 22: reading.heart_rate.unwrap_or(0). -/
abbrev hrVal (r : SensorReading) : Int := r.heart_rate.getD 0

/-- ml_service.rs line 23: reading.spo2.unwrap_or(0). -/
abbrev spVal (r : SensorReading) : Int := r.spo2.getD 0

/-- ml_service.rs line 24: reading.temperature.unwrap_or(0.0). -/
abbrev tempVal (r : SensorReading) : ℚ := r.temperature.getD 0

/-- ml_service.rs lines 138-143: (value - mean) / std_dev, guarding a zero
standard deviation. -/
def calculate_zscore (value mean std_dev : ℚ) : ℚ :=
  if std_dev = 0 then 0 else (value - mean) / std_dev

/-- ml_service.rs lines 115-135: signal quality starts at 1.0, loses 0.4 per
zero vital among heart rate and SpO2, 0.2 for a zero temperature, 0.3 once if
any value is unrealistic, clamped below at 0. -/
def assess_signal_quality (hr sp : Int) (temp : ℚ) : ℚ :=
  let q : ℚ := 1
  let q := if hr = 0 then q - 2/5 else q
  let q := if sp = 0 then q - 2/5 else q
  let q := if temp = 0 then q - 1/5 else q
  let q := if 250 < hr ∨ 100 < sp ∨ 43 < temp ∨ temp < 30 then q - 3/10 else q
  max q 0

/-- ml_service.rs lines 27-31: the bradycardia branch fires when hr > 0 and
hr < critical_hr_low. -/
abbrev hrLowCond (cfg : MlConfig) (r : SensorReading) : Prop :=
  0 < hrVal r ∧ hrVal r < cfg.critical_hr_low

/-- ml_service.rs lines 32-36: the tachycardia branch is the else-if of the
bradycardia branch, so it additionally requires the bradycardia test to have
failed. -/
abbrev hrHighCond (cfg : MlConfig) (r : SensorReading) : Prop :=
  0 < hrVal r ∧ ¬ hrVal r < cfg.critical_hr_low ∧ cfg.critical_hr_high < hrVal r

/-- ml_service.rs lines 39-43: hypoxemia when spo2 > 0 and
spo2 < critical_spo2_low. -/
abbrev spLowCond (cfg : MlConfig) (r : SensorReading) : Prop :=
  0 < spVal r ∧ spVal r < cfg.critical_spo2_low

/-- ml_service.rs lines 46-52: fever when temp > 0 and temp > 38.0. -/
abbrev tempHighCond (r : SensorReading) : Prop :=
  0 < tempVal r ∧ 38 < tempVal r

/-- ml_service.rs lines 53-59: hypothermia is the else-if of the fever
branch: temp > 0, not temp > 38.0, temp < 35.5. -/
abbrev tempLowCond (r : SensorReading) : Prop :=
  0 < tempVal r ∧ ¬ 38 < tempVal r ∧ tempVal r < 35.5

/-- ml_service.rs line 65: quality below 0.5. -/
abbrev poorQualityCond (r : SensorReading) : Prop :=
  assess_signal_quality (hrVal r) (spVal r) (tempVal r) < 1/2

/-- ml_service.rs line 76: absolute heart-rate z-score above 3. -/
abbrev hrZCond (r : SensorReading) : Prop :=
  3 < |calculate_zscore (hrVal r) 70 12|

/-- ml_service.rs line 81: absolute SpO2 z-score above 3. -/
abbrev spZCond (r : SensorReading) : Prop :=
  3 < |calculate_zscore (spVal r) 97 2|

def bradyMsg : String := "Bradycardia detected (low heart rate)"
def tachyMsg : String := "Tachycardia detected (high heart rate)"
def hypoxMsg : String := "Hypoxemia detected (low SpO2)"
def feverMsg : String := "Fever detected"
def hypothermiaMsg : String := "Hypothermia risk"
def poorSignalMsg : String := "Poor signal quality detected"
def hrStatMsg : String := "Statistical HR anomaly"
def spStatMsg : String := "Statistical SpO2 anomaly"

/-- MlService::analyze_reading (ml_service.rs lines 16-112).

The imperative accumulation is rendered functionally: the anomaly list is the
in-order concatenation of the pushes, the raw score is the sum of the fired
contributions, and the alert level reproduces the sequential overwrites:
the heart-rate and SpO2 rules set the level to critical unconditionally;
the temperature rules and the quality rule only upgrade a level still at
none, and the critical rules run first, so the if-chain below is exactly the
order-sensitive imperative outcome.  The z-score rules never touch the level.
Classification (lines 87-95) keeps the two redundant critical branches of
the source. -/
def analyze_reading (cfg : MlConfig) (r : SensorReading) : MlAnalysisResult :=
  let hr_z := calculate_zscore (hrVal r) 70 12
  let sp_z := calculate_zscore (spVal r) 97 2
  let anomalies : List String :=
    (if hrLowCond cfg r then [bradyMsg] else []) ++
    (if hrHighCond cfg r then [tachyMsg] else []) ++
    (if spLowCond cfg r then [hypoxMsg] else []) ++
    (if tempHighCond r then [feverMsg] else []) ++
    (if tempLowCond r then [hypothermiaMsg] else []) ++
    (if poorQualityCond r then [poorSignalMsg] else []) ++
    (if hrZCond r then [hrStatMsg] else []) ++
    (if spZCond r then [spStatMsg] else [])
  let raw : ℚ :=
    (if hrLowCond cfg r then (4:ℚ)/5 else 0) +
    (if hrHighCond cfg r then (4:ℚ)/5 else 0) +
    (if spLowCond cfg r then (9:ℚ)/10 else 0) +
    (if tempHighCond r then (3:ℚ)/5 else 0) +
    (if tempLowCond r then (7:ℚ)/10 else 0) +
    (if hrZCond r then (1:ℚ)/2 else 0) +
    (if spZCond r then (1:ℚ)/2 else 0)
  let level : String :=
    if hrLowCond cfg r ∨ hrHighCond cfg r ∨ spLowCond cfg r then "critical"
    else if tempHighCond r ∨ tempLowCond r then "high"
    else if poorQualityCond r then "low"
    else "none"
  let classification : String :=
    if raw = 0 then "normal"
    else if raw < 1/2 then "warning"
    else if raw < 4/5 then "critical"
    else "critical"
  { anomaly_detected := !anomalies.isEmpty
    anomaly_score := min (raw / 2) 1
    classification := classification
    alert_level := level
    quality_score := assess_signal_quality (hrVal r) (spVal r) (tempVal r)
    details := { anomalies := anomalies, hr_zscore := hr_z, spo2_zscore := sp_z } }

def criticalAlertMsg : String :=
  "Critical vital signs detected! Immediate attention required."
def highAlertMsg : String :=
  "Abnormal vital signs detected. Medical review recommended."
def mediumAlertMsg : String := "Unusual vital signs pattern detected."
def lowAlertMsg : String := "Minor data quality issues detected."

/-- MlService::generate_alert (ml_service.rs lines 146-168).  The Rust match
on the alert-level string (with catch-all returning None) is an if-chain on
string equality. -/
def generate_alert (cfg : MlConfig) (a : MlAnalysisResult) : Option MlAlert :=
  if !cfg.enable_alerts || !a.anomaly_detected then none
  else if a.anomaly_score < cfg.anomaly_threshold then none
  else if a.alert_level = "critical" then
    some { level := a.alert_level, message := criticalAlertMsg, details := a.details }
  else if a.alert_level = "high" then
    some { level := a.alert_level, message := highAlertMsg, details := a.details }
  else if a.alert_level = "medium" then
    some { level := a.alert_level, message := mediumAlertMsg, details := a.details }
  else if a.alert_level = "low" then
    some { level := a.alert_level, message := lowAlertMsg, details := a.details }
  else none

/-- The analyzer configuration used by the repository's own tests
(ml_service.rs lines 194-202). -/
def cfgTest : MlConfig :=
  { anomaly_threshold := 17/20, enable_alerts := true,
    critical_hr_low := 40, critical_hr_high := 180, critical_spo2_low := 88 }

/-- A reading row with the given sensor values (ml_service.rs lines 204-216). -/
def mkReading (hr sp : Option Int) (t : Option ℚ) : SensorReading :=
  { id := 1, device_id := 1, heart_rate := hr, spo2 := sp, temperature := t,
    reading_timestamp := 1700000000, received_at := 1700000000,
    quality_score := some 1 }

/-! ### Token service (src/auth.rs) and bearer extraction -/

/-- The seven characters of the bearer scheme marker. -/
def bearerChars : List Char := "Bearer ".data

/-- Repeatedly strip a leading occurrence of the pattern p, the semantics of
Rust str::trim_start_matches as called in auth.rs line 87.  The fuel
argument (instantiated with the length of the subject, which bounds the
number of strips for a nonempty pattern) makes the recursion structural and
hence kernel-computable. -/
def trimMatchesAux (p : List Char) : Nat → List Char → List Char
  | 0, s => s
  | fuel + 1, s =>
    if p ≠ [] ∧ p.isPrefixOf s then trimMatchesAux p fuel (s.drop p.length)
    else s

/-- extract_bearer_token (auth.rs lines 83-90): requires the header to start
with the bearer marker, then strips every leading repetition of it. -/
def extract_bearer_token (header : Option String) : Except String String :=
  match header with
  | some h =>
    if bearerChars.isPrefixOf h.data then
      Except.ok (String.mk (trimMatchesAux bearerChars h.data.length h.data))
    else Except.error "Missing or invalid Authorization header"
  | none => Except.error "Missing or invalid Authorization header"

/-- The claims record built by JwtAuth::generate_token (auth.rs lines 35-42):
subject is the email, expiry is issuance plus the configured hours.  The
fresh random jti produced by Uuid::new_v4 is passed in as a parameter. -/
def issuedClaims (hours now : Int) (jti user_id : Nat) (email role : String) :
    Claims :=
  { sub := email, user_id := user_id, role := role,
    exp := now + hours * 3600, iat := now, jti := jti }

/-- JwtAuth::generate_token (auth.rs lines 31-46).  The jsonwebtoken crate's
encode is external; it is abstracted as the encode parameter. -/
def generate_token (encode : Claims → String) (hours now : Int)
    (jti user_id : Nat) (email role : String) : String :=
  encode (issuedClaims hours now jti user_id email role)

/-- JwtAuth::validate_token (auth.rs lines 49-53).  The decode parameter
models the jsonwebtoken parse-and-check-signature step (returning some
claims only for a well-signed token); the expiry check of
Validation::default, with its default leeway of 60 seconds, is explicit. -/
def validate_token (decode : String → Option Claims) (now : Int)
    (tok : String) : Except String Claims :=
  match decode tok with
  | none => Except.error "Token validation failed"
  | some c =>
    if c.exp < now - 60 then Except.error "Token validation failed"
    else Except.ok c

/-- A row of the revoked_tokens table.  Modelled from the spec: the SQL
migrations are not under src/, so the table is a plain row list; spec
section 3 calls it the revocation set, so duplicate rows carry no meaning. -/
structure RevokedToken where
  jti : Nat
  user_id : Nat
  expires_at : Int
deriving DecidableEq

/-- The SELECT EXISTS query of JwtAuth::is_token_revoked (auth.rs lines
56-65): a row with this jti and expiry strictly in the future. -/
def is_token_revoked_sem (rows : List RevokedToken) (now : Int) (jti : Nat) :
    Bool :=
  rows.any fun row => row.jti == jti && now < row.expires_at

/-- JwtAuth::revoke_token (auth.rs lines 68-79): a plain INSERT of
(jti, user_id, expires_at) into revoked_tokens, i.e. an appended row. -/
def revoke_token (c : Claims) (rows : List RevokedToken) :
    List RevokedToken :=
  rows ++ [{ jti := c.jti, user_id := c.user_id, expires_at := c.exp }]

/-- The shared authentication gate of get_latest_vitals (handlers.rs lines
337-351) and export_fhir_bundle (handlers.rs lines 399-413): extract the
bearer token, validate it, then consult is_token_revoked with the result
unwrapped to false on a database error (the .unwrap_or(false) on line 349
and line 411).  revDb is the outcome of reading the revoked_tokens table. -/
def clientAuthGate (decode : String → Option Claims) (now : Int)
    (authHeader : Option String)
    (revDb : Except Unit (List RevokedToken)) : Except String Claims :=
  match extract_bearer_token authHeader with
  | Except.error _ => Except.error "Missing token"
  | Except.ok t =>
    match validate_token decode now t with
    | Except.error _ => Except.error "Invalid token"
    | Except.ok c =>
      let revoked : Bool :=
        match revDb with
        | Except.ok rows => is_token_revoked_sem rows now c.jti
        | Except.error _ => false
      if revoked then Except.error "Token revoked" else Except.ok c

/-- Outcome of the logout handler. -/
inductive LogoutResult where
  | missingToken : LogoutResult
  | invalidToken : LogoutResult
  | loggedOut : List RevokedToken → LogoutResult
deriving DecidableEq

/-- logout (handlers.rs lines 180-200): extract and validate the bearer
token, then insert a revocation row; the insert result is discarded and the
handler answers logged_out.  No is_token_revoked call is made. -/
def logoutHandler (decode : String → Option Claims) (now : Int)
    (authHeader : Option String) (rows : List RevokedToken) : LogoutResult :=
  match extract_bearer_token authHeader with
  | Except.error _ => LogoutResult.missingToken
  | Except.ok t =>
    match validate_token decode now t with
    | Except.error _ => LogoutResult.invalidToken
    | Except.ok c => LogoutResult.loggedOut (revoke_token c rows)

/-! ### Device ingestion signature (handlers.rs lines 236-245) -/

/-- The request body of the device ingestion endpoint
(src/models.rs, struct DeviceVitalsIngest), in declared field order. -/
structure DeviceVitalsIngest where
  heartRate : Int
  spo2 : Int
  temperature : ℚ
  timestamp : Int
deriving DecidableEq

/-- Decimal rendering with one fractional digit, the serde_json/ryu output
for every f32 that is exactly an integer or an integer plus one half (for
example 36.5 or 37.0, both exactly representable in f32).  Temperatures
outside that domain are not used by any theorem below. -/
def tempString (q : ℚ) : String :=
  if q.den = 1 then toString q.num ++ ".0"
  else if q.den = 2 then
    toString (q.num / 2) ++ "." ++ toString (q.num % 2 * 5)
  else "unmodelled"

/-- serde_json::to_string of a parsed DeviceVitalsIngest (handlers.rs line
237): compact JSON, keys in struct declaration order. -/
def serializeIngest (b : DeviceVitalsIngest) : String :=
  "\x7b\"heartRate\":" ++ toString b.heartRate ++
  ",\"spo2\":" ++ toString b.spo2 ++
  ",\"temperature\":" ++ tempString b.temperature ++
  ",\"timestamp\":" ++ toString b.timestamp ++ "\x7d"

/-- Modelled from the spec: spec section 4.1 requires the MAC input to be
the timestamp, a dot, and the exact received body bytes. -/
def specSignedString (ts : Int) (rawBody : String) : String :=
  toString ts ++ "." ++ rawBody

/-- The string the handler actually MACs (handlers.rs line 238): the
timestamp, a dot, and the re-serialized parsed body. -/
def deviceMacInput (ts : Int) (body : DeviceVitalsIngest) : String :=
  toString ts ++ "." ++ serializeIngest body

/-- The signature acceptance test of handlers.rs lines 239-243.  HMAC-SHA256
plus base64 is external and abstracted as the mac parameter; acceptance is
string equality of the presented signature with the MAC of the
re-serialized body. -/
def device_sig_ok (mac : String → String → String) (secret : String)
    (ts : Int) (body : DeviceVitalsIngest) (signature : String) : Bool :=
  signature == mac secret (deviceMacInput ts body)

/-! ### FHIR export limit (handlers.rs lines 396 and 416-419) -/

/-- A serde_json value, restricted to the variants the query path can
involve: as_u64 answers some only for an unsigned JSON number. -/
inductive JsonValue where
  | str : String → JsonValue
  | num : Nat → JsonValue
deriving DecidableEq

/-- serde_json::Value::as_u64: some for an unsigned number, none for a
string. -/
def JsonValue.as_u64 : JsonValue → Option Nat
  | JsonValue.num n => some n
  | JsonValue.str _ => none

/-- The export handler extracts its query as web::Query of
serde_json::Value (handlers.rs line 396).  actix parses the query string
with serde_urlencoded, whose untyped deserialization path produces every
parameter value as a JSON string, never a number; that external contract is
modelled here.  rawLimit is the text of the limit parameter when present. -/
def queryLimitValue (rawLimit : Option String) : Option JsonValue :=
  rawLimit.map JsonValue.str

/-- The limit expression of export_fhir_bundle (handlers.rs lines 416-419):
the limit entry of the query map fed through as_u64, defaulted to 100,
capped at 1000. -/
def fhirExportLimit (v : Option JsonValue) : Nat :=
  min ((v.bind JsonValue.as_u64).getD 100) 1000

/-- The fetch limit as a function of the raw limit parameter text. -/
def fhirExportLimitFromQuery (rawLimit : Option String) : Nat :=
  fhirExportLimit (queryLimitValue rawLimit)

/-- The LIMIT clause applied to the readings ordered newest first
(handlers.rs lines 422-429); rows stands for the ordered table. -/
def fetchRecentReadings (rows : List SensorReading)
    (rawLimit : Option String) : List SensorReading :=
  rows.take (fhirExportLimitFromQuery rawLimit)

/-! ### Ingestion pipeline tail (handlers.rs lines 259-328) -/

/-- The responses device_ingest can give from the reading insert onward. -/
inductive IngestResponse where
  | internalError : String → IngestResponse
  | accepted : Int → IngestResponse
deriving DecidableEq

/-- device_ingest from the sensor_readings INSERT to the response
(handlers.rs lines 259-328).  A failed reading insert is a 500; on success
the analysis insert, FHIR insert, cache write and the two broadcasts are
all executed with their results discarded (the let _ = bindings on lines
280, 296, 316 and the non-fallible broadcast calls), and the response is
accepted with the reading id.  persisted is the sensor_readings table. -/
def device_ingest_from_insert (persisted : List SensorReading)
    (insertReading : Except String SensorReading)
    (analysisIns fhirIns cacheW : Except Unit Unit)
    (bcastVitals bcastAlert : Bool) : List SensorReading × IngestResponse :=
  match insertReading with
  | Except.error e =>
    (persisted, IngestResponse.internalError ("Database error: " ++ e))
  | Except.ok reading =>
    let persisted := persisted ++ [reading]
    let _ := analysisIns
    let _ := fhirIns
    let _ := cacheW
    let _ := bcastVitals
    let _ := bcastAlert
    (persisted, IngestResponse.accepted reading.id)

/-! ### Concrete instances used by counterexamples and witnesses -/

/-- The counterexample reading for C1: heart rate 150 sits inside the test
configuration's critical band but more than three z-score deviations from
the population mean of 70. -/
def readingC1 : SensorReading := mkReading (some 150) (some 98) (some (36.8:ℚ))

/-- A fully normal reading, the repository's own normal-ingest scenario. -/
def readingNormal : SensorReading := mkReading (some 72) (some 98) (some (36.8:ℚ))

/-- The counterexample reading for C4: heart rate absent. -/
def readingC4 : SensorReading := mkReading none (some 98) (some (36.8:ℚ))

/-- Configuration for the C5 counterexample: alert threshold 0.2. -/
def cfgC5 : MlConfig := { cfgTest with anomaly_threshold := 1/5 }

/-- The C5 counterexample reading: heart rate 107 triggers only the z-score
rule, which raises the score without touching the alert level. -/
def readingC5 : SensorReading := mkReading (some 107) (some 97) (some (36.8:ℚ))

/-- The analysis of the C5 counterexample reading. -/
def analysisC5 : MlAnalysisResult := analyze_reading cfgC5 readingC5

/-- Concrete claims used by the token-service witnesses. -/
def claimsEx : Claims := issuedClaims 24 0 5 7 "user@example.com" "viewer"

/-- A concrete decoder accepting exactly the token string tok. -/
def decodeEx : String → Option Claims :=
  fun s => if s = "tok" then some claimsEx else none

/-- A revocation table containing the example claims, unexpired at time 0. -/
def rowsEx : List RevokedToken :=
  [{ jti := 5, user_id := 7, expires_at := 86400 }]

/-- The C2 raw request body: semantically the compact body below, but with a
space after each colon separator, as a legitimate JSON client may send. -/
def rawC2 : String :=
  "\x7b\"heartRate\": 72, \"spo2\": 98, \"temperature\": 36.5, \"timestamp\": 1700000000\x7d"

/-- The parse of rawC2 (temperature 36.5 written as a normalized rational so
that it is kernel-computable). -/
def ingestC2 : DeviceVitalsIngest :=
  { heartRate := 72, spo2 := 98, temperature := Rat.divInt 73 2,
    timestamp := 1700000000 }

/-- A constant token encoder used by the round-trip witness. -/
def encodeC9 : Claims → String := fun _ => "tok"

/-- A sensor_readings table of six rows used by the export counterexample. -/
def rowsSix : List SensorReading := List.replicate 6 readingNormal

/-! ## Theorems -/

/-- Unfolding of the anomaly list of an analysis. -/
lemma anomalies_eq (cfg : MlConfig) (r : SensorReading) :
    (analyze_reading cfg r).details.anomalies =
      (if hrLowCond cfg r then [bradyMsg] else []) ++
      (if hrHighCond cfg r then [tachyMsg] else []) ++
      (if spLowCond cfg r then [hypoxMsg] else []) ++
      (if tempHighCond r then [feverMsg] else []) ++
      (if tempLowCond r then [hypothermiaMsg] else []) ++
      (if poorQualityCond r then [poorSignalMsg] else []) ++
      (if hrZCond r then [hrStatMsg] else []) ++
      (if spZCond r then [spStatMsg] else []) := rfl

/-- Membership in a conditional singleton list. -/
lemma mem_if_singleton_iff {c : Prop} [Decidable c] {a b : String} :
    a ∈ (if c then [b] else []) ↔ c ∧ a = b := by
  split <;> simp_all

/-- A string is among the anomalies exactly when some rule fired and pushed
it. -/
lemma mem_anomalies (cfg : MlConfig) (r : SensorReading) (x : String) :
    x ∈ (analyze_reading cfg r).details.anomalies ↔
      (hrLowCond cfg r ∧ x = bradyMsg) ∨ (hrHighCond cfg r ∧ x = tachyMsg) ∨
      (spLowCond cfg r ∧ x = hypoxMsg) ∨ (tempHighCond r ∧ x = feverMsg) ∨
      (tempLowCond r ∧ x = hypothermiaMsg) ∨
      (poorQualityCond r ∧ x = poorSignalMsg) ∨
      (hrZCond r ∧ x = hrStatMsg) ∨ (spZCond r ∧ x = spStatMsg) := by
  rw [anomalies_eq]
  simp only [List.mem_append, mem_if_singleton_iff, or_assoc]

/-- Claim C1, counterexample: with the repository's own test configuration
(critical band 40..180, SpO2 floor 88), the reading (hr 150, spo2 98, temp
36.8) satisfies every hypothesis of the claim, yet the analyzer classifies
it critical rather than normal, because heart rate 150 is more than three
z-score deviations from the population mean 70 and the z-score rule adds
0.5 to the raw score. -/
theorem C1_counterexample :
    (cfgTest.critical_hr_low ≤ 150 ∧ (150:Int) ≤ cfgTest.critical_hr_high ∧
     cfgTest.critical_spo2_low ≤ 98 ∧ (35.5:ℚ) ≤ 36.8 ∧ (36.8:ℚ) ≤ 38) ∧
    readingC1.heart_rate = some 150 ∧ readingC1.spo2 = some 98 ∧
    readingC1.temperature = some (36.8:ℚ) ∧
    (analyze_reading cfgTest readingC1).classification = "critical" ∧
    (analyze_reading cfgTest readingC1).classification ≠ "normal" := by
  have hc : (analyze_reading cfgTest readingC1).classification = "critical" := by
    norm_num [analyze_reading, readingC1, mkReading, cfgTest, hrLowCond,
      hrHighCond, spLowCond, tempHighCond, tempLowCond, poorQualityCond,
      hrZCond, spZCond, assess_signal_quality, calculate_zscore, hrVal,
      spVal, tempVal, abs]
  exact ⟨by norm_num [cfgTest], rfl, rfl, rfl, hc, by rw [hc]; decide⟩

/-- Claim C1, amended: for every configuration and reading whose heart rate
lies in the critical band, whose SpO2 is at least the critical floor, whose
temperature lies in 35.5..38, and which additionally triggers neither
z-score rule (heart rate within 36 of the mean 70 and SpO2 within 6 of the
mean 97 -- the counterexample shows the z-score rules can fire inside the
claimed bands), analyze_reading returns classification normal and
generate_alert returns no alert. -/
theorem C1_amended (cfg : MlConfig) (r : SensorReading) (h s : Int) (t : ℚ)
    (hh : r.heart_rate = some h) (hs : r.spo2 = some s)
    (ht : r.temperature = some t)
    (h1 : cfg.critical_hr_low ≤ h) (h2 : h ≤ cfg.critical_hr_high)
    (h3 : cfg.critical_spo2_low ≤ s)
    (h4 : 35.5 ≤ t) (h5 : t ≤ 38)
    (h6 : |h - 70| ≤ 36) (h7 : |s - 97| ≤ 6) :
    (analyze_reading cfg r).classification = "normal" ∧
    generate_alert cfg (analyze_reading cfg r) = none := by
  have hvh : hrVal r = h := by simp [hrVal, hh]
  have hvs : spVal r = s := by simp [spVal, hs]
  have hvt : tempVal r = t := by simp [tempVal, ht]
  obtain ⟨hb6l, hb6r⟩ := abs_le.mp h6
  obtain ⟨hb7l, hb7r⟩ := abs_le.mp h7
  have hne : h ≠ 0 := by omega
  have sne : s ≠ 0 := by omega
  have hpos : (0:ℚ) < t := lt_of_lt_of_le (by norm_num) h4
  have nhrLow : ¬ hrLowCond cfg r := by
    rw [hrLowCond, hvh]
    intro hc
    exact absurd hc.2 (not_lt.2 h1)
  have nhrHigh : ¬ hrHighCond cfg r := by
    rw [hrHighCond, hvh]
    intro hc
    exact absurd hc.2.2 (not_lt.2 h2)
  have nspLow : ¬ spLowCond cfg r := by
    rw [spLowCond, hvs]
    intro hc
    exact absurd hc.2 (not_lt.2 h3)
  have ntHigh : ¬ tempHighCond r := by
    rw [tempHighCond, hvt]
    intro hc
    exact absurd hc.2 (not_lt.2 h5)
  have ntLow : ¬ tempLowCond r := by
    rw [tempLowCond, hvt]
    intro hc
    exact absurd hc.2.2 (not_lt.2 h4)
  have nhrZ : ¬ hrZCond r := by
    rw [hrZCond, hvh, calculate_zscore,
      if_neg (by norm_num : ¬ (12:ℚ) = 0), not_lt, abs_div,
      abs_of_pos (by norm_num : (0:ℚ) < 12),
      div_le_iff₀ (by norm_num : (0:ℚ) < 12)]
    have hcast : |(h:ℚ) - 70| ≤ 36 := by exact_mod_cast h6
    linarith
  have nspZ : ¬ spZCond r := by
    rw [spZCond, hvs, calculate_zscore,
      if_neg (by norm_num : ¬ (2:ℚ) = 0), not_lt, abs_div,
      abs_of_pos (by norm_num : (0:ℚ) < 2),
      div_le_iff₀ (by norm_num : (0:ℚ) < 2)]
    have hcast : |(s:ℚ) - 97| ≤ 6 := by exact_mod_cast h7
    linarith
  have npoorQ : ¬ poorQualityCond r := by
    rw [poorQualityCond, hvh, hvs, hvt, assess_signal_quality, not_lt]
    simp only [if_neg hne, if_neg sne, if_neg hpos.ne']
    refine le_trans ?_ (le_max_left _ _)
    split
    · norm_num
    · norm_num
  have hclass : (analyze_reading cfg r).classification = "normal" := by
    simp only [analyze_reading, if_neg nhrLow, if_neg nhrHigh, if_neg nspLow,
      if_neg ntHigh, if_neg ntLow, if_neg npoorQ, if_neg nhrZ, if_neg nspZ]
    norm_num
  have hdet : (analyze_reading cfg r).anomaly_detected = false := by
    simp only [analyze_reading, if_neg nhrLow, if_neg nhrHigh, if_neg nspLow,
      if_neg ntHigh, if_neg ntLow, if_neg npoorQ, if_neg nhrZ, if_neg nspZ]
    rfl
  refine ⟨hclass, ?_⟩
  rw [generate_alert]
  simp [hdet]

/-- Witness for C1: the repository's normal-ingest reading (72, 98, 36.8)
under the test configuration satisfies every hypothesis and is classified
normal with no alert. -/
theorem C1_witness :
    (cfgTest.critical_hr_low ≤ 72 ∧ (72:Int) ≤ cfgTest.critical_hr_high ∧
     cfgTest.critical_spo2_low ≤ 98 ∧ (35.5:ℚ) ≤ 36.8 ∧ (36.8:ℚ) ≤ 38 ∧
     |(72:Int) - 70| ≤ 36 ∧ |(98:Int) - 97| ≤ 6) ∧
    (analyze_reading cfgTest readingNormal).classification = "normal" ∧
    generate_alert cfgTest (analyze_reading cfgTest readingNormal) = none :=
  ⟨⟨by norm_num [cfgTest], by norm_num [cfgTest], by norm_num [cfgTest],
    by norm_num, by norm_num, by decide, by decide⟩,
   C1_amended cfgTest readingNormal 72 98 (36.8:ℚ) rfl rfl rfl
     (by norm_num [cfgTest]) (by norm_num [cfgTest]) (by norm_num [cfgTest])
     (by norm_num) (by norm_num) (by decide) (by decide)⟩

/-- Claim C4, counterexample: a reading with no heart rate (and normal SpO2
98 and temperature 36.8) is not left untouched by the heart-rate z-score
rule: the zero sentinel is fed into the z-score, which fires and yields a
nonzero score and a critical classification. -/
theorem C4_counterexample :
    readingC4.heart_rate = none ∧
    (analyze_reading cfgTest readingC4).details.anomalies = [hrStatMsg] ∧
    (analyze_reading cfgTest readingC4).anomaly_score = 1/4 ∧
    (analyze_reading cfgTest readingC4).classification = "critical" := by
  refine ⟨rfl, ?_, ?_, ?_⟩ <;>
    norm_num [analyze_reading, readingC4, mkReading, cfgTest, hrLowCond,
      hrHighCond, spLowCond, tempHighCond, tempLowCond, poorQualityCond,
      hrZCond, spZCond, assess_signal_quality, calculate_zscore, hrVal,
      spVal, tempVal, abs]

/-- Claim C4, amended: a missing (None or zero-sentinel) heart rate or SpO2
is skipped by its threshold rules, which carry a positivity guard, but it is
not skipped by the z-score rules: the zero sentinel always makes the
corresponding z-score rule fire (|0 - 70|/12 and |0 - 97|/2 both exceed 3),
contributing its anomaly string and score. -/
theorem C4_amended (cfg : MlConfig) (r : SensorReading) :
    (r.heart_rate.getD 0 = 0 →
      bradyMsg ∉ (analyze_reading cfg r).details.anomalies ∧
      tachyMsg ∉ (analyze_reading cfg r).details.anomalies ∧
      hrStatMsg ∈ (analyze_reading cfg r).details.anomalies) ∧
    (r.spo2.getD 0 = 0 →
      hypoxMsg ∉ (analyze_reading cfg r).details.anomalies ∧
      spStatMsg ∈ (analyze_reading cfg r).details.anomalies) := by
  constructor
  · intro h0
    have h0v : hrVal r = 0 := h0
    have hz : hrZCond r := by
      rw [hrZCond, h0v, calculate_zscore,
        if_neg (by norm_num : ¬ (12:ℚ) = 0)]
      rw [lt_abs]
      right
      norm_num
    refine ⟨?_, ?_, ?_⟩
    · intro hmem
      rcases (mem_anomalies cfg r bradyMsg).mp hmem with
        hc | hc | hc | hc | hc | hc | hc | hc
      · exact absurd hc.1.1 (by rw [h0v]; exact lt_irrefl 0)
      · exact absurd hc.1.1 (by rw [h0v]; exact lt_irrefl 0)
      all_goals exact absurd hc.2 (by decide)
    · intro hmem
      rcases (mem_anomalies cfg r tachyMsg).mp hmem with
        hc | hc | hc | hc | hc | hc | hc | hc
      · exact absurd hc.1.1 (by rw [h0v]; exact lt_irrefl 0)
      · exact absurd hc.1.1 (by rw [h0v]; exact lt_irrefl 0)
      all_goals exact absurd hc.2 (by decide)
    · exact (mem_anomalies cfg r hrStatMsg).mpr
        (Or.inr (Or.inr (Or.inr (Or.inr (Or.inr (Or.inr
          (Or.inl ⟨hz, rfl⟩)))))))
  · intro h0
    have h0v : spVal r = 0 := h0
    have hz : spZCond r := by
      rw [spZCond, h0v, calculate_zscore,
        if_neg (by norm_num : ¬ (2:ℚ) = 0)]
      rw [lt_abs]
      right
      norm_num
    refine ⟨?_, ?_⟩
    · intro hmem
      rcases (mem_anomalies cfg r hypoxMsg).mp hmem with
        hc | hc | hc | hc | hc | hc | hc | hc
      · exact absurd hc.2 (by decide)
      · exact absurd hc.2 (by decide)
      · exact absurd hc.1.1 (by rw [h0v]; exact lt_irrefl 0)
      all_goals exact absurd hc.2 (by decide)
    · exact (mem_anomalies cfg r spStatMsg).mpr
        (Or.inr (Or.inr (Or.inr (Or.inr (Or.inr (Or.inr
          (Or.inr ⟨hz, rfl⟩)))))))

/-- Witness for C4: the reading with no heart rate gets neither heart-rate
threshold anomaly but does get the statistical heart-rate anomaly. -/
theorem C4_witness :
    readingC4.heart_rate.getD 0 = 0 ∧
    (bradyMsg ∉ (analyze_reading cfgTest readingC4).details.anomalies ∧
     tachyMsg ∉ (analyze_reading cfgTest readingC4).details.anomalies ∧
     hrStatMsg ∈ (analyze_reading cfgTest readingC4).details.anomalies) :=
  ⟨rfl, (C4_amended cfgTest readingC4).1 rfl⟩

/-- Claim C5, counterexample: with alerts enabled, threshold 0.2, and the
analysis of the reading (107, 97, 36.8) -- detected anomaly, score 0.25
at or above the threshold -- generate_alert still returns no alert, because
only the z-score rule fired and the alert level remained none, which the
message table does not cover. -/
theorem C5_counterexample :
    cfgC5.enable_alerts = true ∧
    analysisC5.anomaly_detected = true ∧
    cfgC5.anomaly_threshold ≤ analysisC5.anomaly_score ∧
    generate_alert cfgC5 analysisC5 = none := by
  have hdet : analysisC5.anomaly_detected = true := by
    norm_num [analysisC5, readingC5, cfgC5, mkReading, cfgTest,
      analyze_reading, hrLowCond, hrHighCond, spLowCond, tempHighCond,
      tempLowCond, poorQualityCond, hrZCond, spZCond, assess_signal_quality,
      calculate_zscore, hrVal, spVal, tempVal, abs]
  have hsc : cfgC5.anomaly_threshold ≤ analysisC5.anomaly_score := by
    norm_num [analysisC5, readingC5, cfgC5, mkReading, cfgTest,
      analyze_reading, hrLowCond, hrHighCond, spLowCond, tempHighCond,
      tempLowCond, poorQualityCond, hrZCond, spZCond, assess_signal_quality,
      calculate_zscore, hrVal, spVal, tempVal, abs]
  have hlev : analysisC5.alert_level = "none" := by
    norm_num [analysisC5, readingC5, cfgC5, mkReading, cfgTest,
      analyze_reading, hrLowCond, hrHighCond, spLowCond, tempHighCond,
      tempLowCond, poorQualityCond, hrZCond, spZCond, assess_signal_quality,
      calculate_zscore, hrVal, spVal, tempVal, abs]
  have hord : ¬ analysisC5.anomaly_score < cfgC5.anomaly_threshold :=
    not_lt.2 hsc
  refine ⟨rfl, hdet, hsc, ?_⟩
  simp [generate_alert, hdet, hlev, hord, cfgC5, cfgTest]

/-- Claim C5, amended: generate_alert produces an alert if and only if
alerts are enabled, an anomaly was detected, the score reaches the
threshold, and additionally the alert level is one of critical, high,
medium, low (an analysis whose level remained none, as produced when only
z-score rules fire, yields no alert). -/
theorem C5_amended (cfg : MlConfig) (a : MlAnalysisResult) :
    (generate_alert cfg a).isSome = true ↔
      (cfg.enable_alerts = true ∧ a.anomaly_detected = true ∧
       cfg.anomaly_threshold ≤ a.anomaly_score ∧
       (a.alert_level = "critical" ∨ a.alert_level = "high" ∨
        a.alert_level = "medium" ∨ a.alert_level = "low")) := by
  cases he : cfg.enable_alerts <;> cases hd : a.anomaly_detected
  · simp [generate_alert, he, hd]
  · simp [generate_alert, he, hd]
  · simp [generate_alert, he, hd]
  · rw [generate_alert]
    simp only [he, hd, Bool.not_true, Bool.or_self]
    rw [if_neg (by simp)]
    split_ifs with h2 h3 h4 h5 h6 <;> simp_all [not_lt]

/-- Claim C2, code evidence: rawC2 differs from the re-serialization of its
parse only in JSON whitespace (removing the spaces yields exactly the
compact serde output), yet the string the handler MACs is built from the
re-serialized body and differs from the string over the received bytes that
the spec mandates; since the handler accepts exactly a match of the MAC
over the re-serialized body, a client signing the bytes it actually sent is
rejected. -/
theorem C2_codebug_evidence :
    rawC2.data.filter (fun ch => ch ≠ ' ') = (serializeIngest ingestC2).data ∧
    specSignedString 1700000000 rawC2 ≠ deviceMacInput 1700000000 ingestC2 ∧
    ∀ (mac : String → String → String) (secret sig : String),
      device_sig_ok mac secret 1700000000 ingestC2 sig =
        (sig == mac secret (deviceMacInput 1700000000 ingestC2)) :=
  ⟨by decide, by decide, fun _ _ _ => rfl⟩

/-- Claim C3, counterexample: when the revocation lookup fails (the database
read errors, so revocation status cannot be determined), the
.unwrap_or(false) in the vitals and export handlers treats the token as not
revoked and the gate authorizes the request instead of answering
unauthorized. -/
theorem C3_counterexample :
    clientAuthGate decodeEx 0 (some "Bearer tok") (Except.error ()) =
      Except.ok claimsEx := by decide

/-- Claim C3, amended: the latest-vitals and FHIR-export gates validate the
bearer token and then consult the revocation set, rejecting with Token
revoked any token whose id is in the set with unexpired expiry; but when the
revocation status cannot be determined the request proceeds (fails open),
and logout validates and then inserts a revocation row without consulting
the revocation set, succeeding even for an already revoked token. -/
theorem C3_amended (decode : String → Option Claims) (now : Int)
    (hdr : Option String) (t : String) (c : Claims)
    (rows : List RevokedToken)
    (hex : extract_bearer_token hdr = Except.ok t)
    (hval : validate_token decode now t = Except.ok c) :
    (is_token_revoked_sem rows now c.jti = true →
      clientAuthGate decode now hdr (Except.ok rows) =
        Except.error "Token revoked") ∧
    clientAuthGate decode now hdr (Except.error ()) = Except.ok c ∧
    logoutHandler decode now hdr rows =
      LogoutResult.loggedOut (revoke_token c rows) := by
  refine ⟨fun hrev => ?_, ?_, ?_⟩ <;>
    simp_all [clientAuthGate, logoutHandler]

/-- Witness for C3: a token present in the revocation table with unexpired
expiry is rejected by the gate. -/
theorem C3_witness :
    clientAuthGate decodeEx 0 (some "Bearer tok") (Except.ok rowsEx) =
      Except.error "Token revoked" :=
  (C3_amended decodeEx 0 (some "Bearer tok") "tok" claimsEx rowsEx
    (by decide) (by decide)).1 (by decide)

/-- Claim C6: revoking the same claims twice leaves the revocation set (the
set of rows, which is what the EXISTS query of is_token_revoked observes)
in the same state as revoking once, with the (jti, user_id, expiry) row
present; in the modelled schema (no uniqueness constraint appears under
src/) the second plain INSERT also succeeds. -/
theorem C6_revoke_idempotent (c : Claims) (rows : List RevokedToken) :
    (revoke_token c (revoke_token c rows)).toFinset =
      (revoke_token c rows).toFinset ∧
    ({ jti := c.jti, user_id := c.user_id, expires_at := c.exp } :
      RevokedToken) ∈ revoke_token c rows ∧
    ∀ (now : Int) (j : Nat),
      is_token_revoked_sem (revoke_token c (revoke_token c rows)) now j =
        is_token_revoked_sem (revoke_token c rows) now j := by
  refine ⟨?_, ?_, fun now j => ?_⟩
  · simp [revoke_token, List.toFinset_append, Finset.union_assoc]
  · simp [revoke_token]
  · simp [revoke_token, is_token_revoked_sem, List.any_append,
      Bool.or_assoc, Bool.or_self]

/-- Claim C7, counterexample: a request carrying limit 5 in its query
string does not fetch 5 readings.  The urlencoded value arrives as the JSON
string "5", as_u64 on a string is none, so the handler computes limit 100
and, on a table of six readings, fetches all six rather than the claimed
clamped five. -/
theorem C7_counterexample :
    queryLimitValue (some "5") = some (JsonValue.str "5") ∧
    fhirExportLimitFromQuery (some "5") = 100 ∧ (100 : Nat) ≠ 5 ∧
    rowsSix.length = 6 ∧
    (fetchRecentReadings rowsSix (some "5")).length = 6 := by
  refine ⟨rfl, rfl, by decide, rfl, rfl⟩

/-- Claim C7, amended: the fetch limit of the FHIR export is always 100,
whether the limit parameter is absent or present with any text: every query
value deserializes as a JSON string, as_u64 yields none on strings, and
unwrap_or(100).min(1000) then always evaluates to 100; the number of
readings fetched is therefore the smaller of 100 and the table size. -/
theorem C7_amended (rawLimit : Option String) (rows : List SensorReading) :
    fhirExportLimitFromQuery rawLimit = 100 ∧
    (fetchRecentReadings rows rawLimit).length = min 100 rows.length := by
  have h : fhirExportLimitFromQuery rawLimit = 100 := by
    cases rawLimit <;> rfl
  refine ⟨h, ?_⟩
  simp [fetchRecentReadings, h, List.length_take]

/-- Claim C8: once the SensorReading insert has succeeded, the response is
accepted with the reading id and the reading stays persisted, whatever the
outcomes of the analysis insert, FHIR insert, cache write, and the two
broadcasts -- their results are discarded. -/
theorem C8_ingest_response_independent (persisted : List SensorReading)
    (r : SensorReading) (aIns fIns cW : Except Unit Unit) (bv ba : Bool) :
    device_ingest_from_insert persisted (Except.ok r) aIns fIns cW bv ba =
      (persisted ++ [r], IngestResponse.accepted r.id) ∧
    r ∈ (device_ingest_from_insert persisted (Except.ok r) aIns fIns cW bv ba).1 := by
  refine ⟨rfl, ?_⟩
  simp [device_ingest_from_insert]

/-- Claim C9: validating a freshly issued token round-trips -- given the
jsonwebtoken codec decoding its own encoding and a positive configured
expiration, validate returns the issued claims, whose user_id, sub and role
are the issuance inputs, and whose expiry strictly exceeds the issue
instant. -/
theorem C9_issue_validate_roundtrip (encode : Claims → String)
    (decode : String → Option Claims) (hours now : Int) (jti uid : Nat)
    (email role : String)
    (hdec : decode (generate_token encode hours now jti uid email role) =
      some (issuedClaims hours now jti uid email role))
    (hpos : 0 < hours) :
    validate_token decode now
        (generate_token encode hours now jti uid email role) =
      Except.ok (issuedClaims hours now jti uid email role) ∧
    (issuedClaims hours now jti uid email role).user_id = uid ∧
    (issuedClaims hours now jti uid email role).sub = email ∧
    (issuedClaims hours now jti uid email role).role = role ∧
    (issuedClaims hours now jti uid email role).iat <
      (issuedClaims hours now jti uid email role).exp := by
  have hmul : (0:Int) < hours * 3600 :=
    mul_pos hpos (by norm_num)
  have hexp : ¬ (issuedClaims hours now jti uid email role).exp < now - 60 := by
    simp only [issuedClaims, not_lt]
    linarith
  refine ⟨?_, rfl, rfl, rfl, ?_⟩
  · simp [validate_token, hdec, hexp]
  · simp only [issuedClaims]
    linarith

/-- Witness for C9: a concrete codec pair round-trips the claims issued at
time 0 for user 7 with a 24-hour expiration. -/
theorem C9_witness :
    validate_token decodeEx 0
        (generate_token encodeC9 24 0 5 7 "user@example.com" "viewer") =
      Except.ok (issuedClaims 24 0 5 7 "user@example.com" "viewer") ∧
    (issuedClaims 24 0 5 7 "user@example.com" "viewer").user_id = 7 ∧
    (issuedClaims 24 0 5 7 "user@example.com" "viewer").sub =
      "user@example.com" ∧
    (issuedClaims 24 0 5 7 "user@example.com" "viewer").role = "viewer" ∧
    (issuedClaims 24 0 5 7 "user@example.com" "viewer").iat <
      (issuedClaims 24 0 5 7 "user@example.com" "viewer").exp :=
  C9_issue_validate_roundtrip encodeC9 decodeEx 24 0 5 7 "user@example.com"
    "viewer" (by decide) (by decide)

/-- A list is a prefix of itself followed by anything. -/
lemma isPrefixOf_append_self (p s : List Char) :
    p.isPrefixOf (p ++ s) = true := by
  induction p with
  | nil => simp [List.isPrefixOf]
  | cons a as ih => simp [List.isPrefixOf, ih]

/-- Stripping does nothing when the pattern is not a prefix. -/
lemma trimMatchesAux_of_not_pre (p s : List Char) (fuel : Nat)
    (h : p.isPrefixOf s = false) : trimMatchesAux p fuel s = s := by
  cases fuel with
  | zero => rfl
  | succ n => simp [trimMatchesAux, h]

/-- Stripping the bearer marker from the marker followed by a
marker-free tail yields the tail. -/
lemma trimMatchesAux_bearer (t : List Char)
    (h : bearerChars.isPrefixOf t = false) :
    trimMatchesAux bearerChars (bearerChars ++ t).length
      (bearerChars ++ t) = t := by
  have hlen : (bearerChars ++ t).length = (t.length + 6) + 1 := by
    simp [bearerChars, List.length_append]
  rw [hlen]
  rw [trimMatchesAux]
  rw [if_pos ⟨by decide, by rw [isPrefixOf_append_self]⟩]
  rw [show (bearerChars ++ t).drop bearerChars.length = t from
    List.drop_left _ _]
  exact trimMatchesAux_of_not_pre _ _ _ h

/-- Claim C10: bearer extraction strips every leading repetition of the
marker Bearer followed by a space: prepending the marker to any token that
does not itself start with the marker extracts exactly that token, but for
the token Bearer x -- which does start with the marker -- extraction from
the well-formed header returns only x, a proper suffix of the token. -/
theorem C10_bearer_extraction :
    (∀ t : String, bearerChars.isPrefixOf t.data = false →
      extract_bearer_token (some ("Bearer " ++ t)) = Except.ok t) ∧
    (extract_bearer_token (some "Bearer Bearer x") = Except.ok "x" ∧
     ("x" : String) ≠ "Bearer x" ∧
     ("x" : String).data.isSuffixOf ("Bearer x" : String).data = true) := by
  refine ⟨fun t hpre => ?_, by decide, by decide, by decide⟩
  obtain ⟨l⟩ := t
  show extract_bearer_token (some (String.mk (bearerChars ++ l))) =
    Except.ok (String.mk l)
  rw [extract_bearer_token]
  rw [if_pos (by rw [show (String.mk (bearerChars ++ l)).data =
    bearerChars ++ l from rfl, isPrefixOf_append_self])]
  rw [show (String.mk (bearerChars ++ l)).data = bearerChars ++ l from rfl]
  rw [trimMatchesAux_bearer l hpre]

/-- Witness for C10: a marker-free token round-trips through extraction. -/
theorem C10_witness :
    bearerChars.isPrefixOf ("tok" : String).data = false ∧
    extract_bearer_token (some ("Bearer " ++ "tok")) = Except.ok "tok" :=
  ⟨by decide, C10_bearer_extraction.1 "tok" (by decide)⟩

end SmartWalker
